import Mathlib

/-!
Shallow embedding of `chess_tracker.py` (sawyershoemaker/chess.com-tracker).

Each definition translates one function of the script.  Network and file
I/O are replaced by explicit parameters (the fetched game list, the
optional league info, the current Unix time, whether `WEBHOOK_URL` is
configured) and by explicit results (the ordered list of notification
events handed to the dispatch functions, the persisted tracker state, and
whether the run ended in an uncaught Python exception).
-/

namespace ChessTracker

/-- Python `str.split(sep)` on a character list.  As in Python, the result
is always non-empty: splitting the empty string yields `[""]`, and each
separator occurrence contributes one more segment. -/
def pySplit (sep : Char) : List Char → List String
  | [] => [""]
  | c :: rest =>
    let r := pySplit sep rest
    if c = sep then "" :: r
    else (String.mk [c] ++ r.headD "") :: r.tail

/-- Python `str.rstrip("/")`: drop all trailing slash characters. -/
def rstripSlashL (l : List Char) : List Char :=
  ((l.reverse).dropWhile (fun c => c = '/')).reverse

/-- `extract_game_id` (chess_tracker.py lines 53-55):
`parts = url.rstrip("/").split("/"); return parts[-1] if parts else url`.
The `else url` fallback corresponds to the `none` branch of `getLast?`. -/
def extract_game_id (url : String) : String :=
  let parts := pySplit '/' (rstripSlashL url.toList)
  match parts.getLast? with
  | some p => p
  | none => url

/-- Decimal value of an ASCII digit character. -/
def digitVal? (c : Char) : Option Nat :=
  if '0' ≤ c ∧ c ≤ '9' then some (c.toNat - '0'.toNat) else none

/-- Accumulate a decimal number; `none` as soon as a non-digit appears. -/
def digitsAux : List Char → Nat → Option Nat
  | [], acc => some acc
  | c :: t, acc =>
    match digitVal? c with
    | none => none
    | some d => digitsAux t (acc * 10 + d)

/-- Parse a non-empty all-digit character list. -/
def digits? : List Char → Option Nat
  | [] => none
  | l => digitsAux l 0

/-- Python `int(s)` on a plain decimal string: surrounding whitespace and
one optional sign are allowed; `none` models a raised `ValueError`.
(Unicode digits and underscore separators, which CPython also accepts,
are not modelled.) -/
def pyInt? (s : String) : Option Int :=
  let t := ((s.toList.dropWhile Char.isWhitespace).reverse.dropWhile
    Char.isWhitespace).reverse
  match t with
  | '+' :: rest => (digits? rest).map Int.ofNat
  | '-' :: rest => (digits? rest).map (fun n => -(Int.ofNat n))
  | _ => (digits? t).map Int.ofNat

/-- Python `str.lower()` restricted to ASCII (all strings the script
lowercases — usernames, league codes, `"unlimited"` — are ASCII). -/
def pyLowerChar (c : Char) : Char :=
  if 'A' ≤ c ∧ c ≤ 'Z' then Char.ofNat (c.toNat + 32) else c

/-- Python `str.lower()`, character by character. -/
def pyLower (s : String) : String :=
  String.mk (s.toList.map pyLowerChar)

/-- `categorize_time_control` (lines 57-69): parse the base thinking time
before the first `+`; any parse failure is caught and yields `"unknown"`. -/
def categorize_time_control (tc : String) : String :=
  match pyInt? (String.mk (tc.toList.takeWhile (fun c => c ≠ '+'))) with
  | none => "unknown"
  | some main_time =>
    if main_time < 180 then "bullet"
    else if main_time < 480 then "blitz"
    else if main_time < 1500 then "rapid"
    else "daily"

/-- `format_time_control` (lines 101-121).  `main_time // 60` is Python
floor division, hence `Int.fdiv`.  `tc.split('+', 1)` splits at the first
`+` only. -/
def format_time_control (tc : String) : String :=
  if pyLower tc = "unlimited" then "Unlimited"
  else if tc.toList.contains '+' then
    match pyInt? (String.mk (tc.toList.takeWhile (fun c => c ≠ '+'))),
          pyInt? (String.mk ((tc.toList.dropWhile (fun c => c ≠ '+')).drop 1)) with
    | some main_time, some increment =>
        toString (Int.fdiv main_time 60) ++ " | " ++ toString increment
    | _, _ => tc
  else
    match pyInt? tc with
    | some main_time => toString (Int.fdiv main_time 60) ++ " | 0"
    | none => tc

/-- Index of the first `"` in `l` (Python `str.find('"')`). -/
def firstQuoteIdx (l : List Char) : Option Nat :=
  l.findIdx? (fun c => c = '"')

/-- Index of the last `"` in `l` (Python `str.rfind('"')`). -/
def lastQuoteIdx (l : List Char) : Option Nat :=
  match (l.reverse).findIdx? (fun c => c = '"') with
  | none => none
  | some i => some (l.length - 1 - i)

/-- Body of `parse_termination`'s per-line check (lines 148-151): the slice
`line[start+1:end]` when both quotes are found and `end > start`. -/
def quoteSlice (line : String) : Option String :=
  let l := line.toList
  match firstQuoteIdx l, lastQuoteIdx l with
  | some s, some e =>
    if s < e then some (String.mk ((l.drop (s + 1)).take (e - (s + 1)))) else none
  | _, _ => none

/-- `parse_termination` (lines 145-152) over the list of PGN lines
(`pgn.splitlines()` modelled as splitting on a line feed): the loop keeps
scanning when a `[Termination ` line has no well-formed quoted value. -/
def findTermination : List String → String
  | [] => "Unknown"
  | line :: rest =>
    if line.startsWith "[Termination " then
      match quoteSlice line with
      | some s => s
      | none => findTermination rest
    else findTermination rest

/-- One side of a raw archive game record: `game["white"]` / `game["black"]`.
`username` and `result` are accessed with `[]` (required); `rating` and
`rating_change` with `.get` (optional). -/
structure PlayerInfo where
  username : String
  rating : Option Int
  result : String
  rating_change : Option Int
deriving DecidableEq

/-- A raw game record from the archive endpoint.  Fields read with `.get`
in the script are optional here. -/
structure RawGame where
  white : PlayerInfo
  black : PlayerInfo
  time_control : Option String
  url : Option String
  pgn : Option String
  end_time : Option Int
deriving DecidableEq

/-- The tuple returned by `determine_game_details` (lines 186-187).
`opponent_rating` is an `Option`: the script keeps the string `"N/A"` when
the rating is absent. -/
structure GameDetails where
  opponent : String
  result : String
  game_url : String
  time_control_formatted : String
  current_rating : Int
  raw_rating_change : Option Int
  termination : String
  end_time : Option Int
  raw_time_control : String
  opponent_rating : Option Int
deriving DecidableEq

/-- `CHESS_USERNAME` (line 10). -/
def CHESS_USERNAME : String := "inseem"

/-- `determine_game_details` (lines 154-187). -/
def determine_game_details (game : RawGame) : GameDetails :=
  let matched :=
    if pyLower game.white.username = pyLower CHESS_USERNAME then
      some (game.black.username, (game.white.rating).getD 0, game.white.rating_change,
            game.black.rating,
            if game.white.result = "win" then "Win"
            else if game.black.result = "win" then "Loss" else "Draw")
    else if pyLower game.black.username = pyLower CHESS_USERNAME then
      some (game.white.username, (game.black.rating).getD 0, game.black.rating_change,
            game.white.rating,
            if game.black.result = "win" then "Win"
            else if game.white.result = "win" then "Loss" else "Draw")
    else none
  let fields := match matched with
    | some t => t
    | none => ("Unknown", 0, none, none, "Draw")
  let raw_time_control := (game.time_control).getD "Unknown"
  let pgn := (game.pgn).getD ""
  { opponent := fields.1
    result := fields.2.2.2.2
    game_url := (game.url).getD "No link available"
    time_control_formatted := format_time_control raw_time_control
    current_rating := fields.2.1
    raw_rating_change := fields.2.2.1
    termination := if pgn = "" then "Unknown" else findTermination (pgn.splitOn "\n")
    end_time := game.end_time
    raw_time_control := raw_time_control
    opponent_rating := fields.2.2.2.1 }

/-- Python `dict.get` on a string-keyed association list (insertion order,
first matching key wins — keys are unique by construction of `dictSet`). -/
def dictGet : List (String × Int) → String → Option Int
  | [], _ => none
  | (k', v') :: t, k => if k' = k then some v' else dictGet t k

/-- Python `d[k] = v` on a string-keyed association list: replace in place,
or append a fresh key at the end (Python dict insertion-order semantics). -/
def dictSet : List (String × Int) → String → Int → List (String × Int)
  | [], k, v => [(k, v)]
  | (k', v') :: t, k, v =>
    if k' = k then (k, v) :: t else (k', v') :: dictSet t k v

/-- `ADVANCEMENT_THRESHOLDS` (lines 15-24) read through `.get`: `"legend"`
is explicitly `None` in the dict, and unknown codes default to `None`. -/
def ADVANCEMENT_THRESHOLDS : String → Option Int
  | "wood" => some 20
  | "stone" => some 15
  | "bronze" => some 10
  | "silver" => some 5
  | "crystal" => some 3
  | "elite" => some 3
  | "champion" => some 1
  | _ => none

/-- The `alert_info` sub-record of the persisted data (lines 388, 417-423):
`alert_info.get("league_endTime")` (default `None`) and
`alert_info.get("alert_sent", False)`. -/
structure AlertInfo where
  league_endTime : Option Int
  alert_sent : Bool
deriving DecidableEq

/-- The reconciliation-relevant part of the persisted `last_game.json`
record as read by `main` (lines 385-388): `processed_games` (a list, used
as a set), `last_rating` (dict from category to rating) and `alert_info`.
The remaining record keys written by the script (`league_message_id`,
`league_snapshot`, `last_update`) are transport/display bookkeeping that
the reconciliation logic never reads back. -/
structure TrackerState where
  processed_games : List String
  last_rating : List (String × Int)
  alert_info : AlertInfo
deriving DecidableEq

/-- The league payload returned by `fetch_league_info` (lines 189-201),
already drilled down to the fields the script reads with `.get`: the
response is a dict that contains `division` and `stats` keys. -/
structure LeagueInfo where
  division_endTime : Option Int
  league_name : Option String
  league_code : Option String
  ranking : Option Int
  trophyCount : Option Int
  division_name : Option String
  divisionUrl : Option String
deriving DecidableEq

/-- The arguments handed to `send_discord_webhook` for one new game
(lines 424-425).  `add_alert` is the flag computed in lines 411-422; note
that `send_discord_webhook` (lines 318-365) accepts but never uses its
`league_info` and `add_alert` parameters, so the flag does not appear in
the delivered message. -/
structure GameReportData where
  opponent : String
  game_url : String
  time_control : String
  rating_change : Int
  result : String
  termination : String
  end_time : Option Int
  category : String
  current_rating : Int
  opponent_rating : Option Int
  add_alert : Bool
deriving DecidableEq

/-- The league embed posted by `update_league_webhook` (lines 231-316):
name, code, position, points, and whether the `Alert` field (lines
259-279) was appended. -/
structure LeagueUpdateData where
  league_name : String
  league_code : String
  league_place : Option Int
  league_points : Option Int
  alert_needed : Bool
deriving DecidableEq

/-- One outbound notification attempt of a run. -/
inductive Event where
  | gameReport (d : GameReportData)
  | leagueUpdate (d : LeagueUpdateData)
deriving DecidableEq

/-- The mutable locals of `main`'s per-game loop (lines 386-427):
`processed_games`, `last_rating_dict`, `alert_info`, `new_game_found`,
plus the ordered list of dispatch calls made so far. -/
structure LoopState where
  processed : List String
  last_rating : List (String × Int)
  alert_info : AlertInfo
  new_game_found : Bool
  events : List Event
deriving DecidableEq

/-- Lines 395-396: `game_id = extract_game_id(game.get("url", ""))`. -/
def gameIdOf (g : RawGame) : String :=
  extract_game_id ((g.url).getD "")

/-- Line 401: `category = categorize_time_control(raw_time_control)`. -/
def catOf (g : RawGame) : String :=
  categorize_time_control (determine_game_details g).raw_time_control

/-- Lines 402-409: rating-change resolution against the current (running)
`last_rating_dict`. -/
def ratingChangeOf (last_rating : List (String × Int)) (g : RawGame) : Int :=
  match (determine_game_details g).raw_rating_change with
  | some rc => rc
  | none =>
    match dictGet last_rating (catOf g) with
    | some previous_rating => (determine_game_details g).current_rating - previous_rating
    | none => 0

/-- Lines 411-422: the per-game league-deadline bookkeeping.  Returns the
`add_alert` flag and the updated `alert_info`.  Note line 414 defaults a
missing `division["endTime"]` to `0`. -/
def alertStep (league_info : Option LeagueInfo) (now : Int) (ai : AlertInfo) :
    Bool × AlertInfo :=
  match league_info with
  | none => (false, ai)
  | some li =>
    let current_end_time : Int := (li.division_endTime).getD 0
    let time_left := current_end_time - now
    let ai0 :=
      if ai.league_endTime ≠ some current_end_time then
        ⟨some current_end_time, false⟩
      else ai
    if time_left < 86400 ∧ ai0.alert_sent = false then
      (true, { ai0 with alert_sent := true })
    else (false, ai0)

/-- The argument record of the `send_discord_webhook` call for a new game
(lines 399-425), built from the running loop state. -/
def reportOf (league_info : Option LeagueInfo) (now : Int) (st : LoopState)
    (g : RawGame) : GameReportData :=
  { opponent := (determine_game_details g).opponent
    game_url := (determine_game_details g).game_url
    time_control := (determine_game_details g).time_control_formatted
    rating_change := ratingChangeOf st.last_rating g
    result := (determine_game_details g).result
    termination := (determine_game_details g).termination
    end_time := (determine_game_details g).end_time
    category := catOf g
    current_rating := (determine_game_details g).current_rating
    opponent_rating := (determine_game_details g).opponent_rating
    add_alert := (alertStep league_info now st.alert_info).1 }

/-- One iteration of `main`'s `for game in games` loop (lines 394-427). -/
def processGame (league_info : Option LeagueInfo) (now : Int) (st : LoopState)
    (g : RawGame) : LoopState :=
  if gameIdOf g ∈ st.processed then st
  else
    { processed := st.processed ++ [gameIdOf g]
      last_rating := dictSet st.last_rating (catOf g)
        (determine_game_details g).current_rating
      alert_info := (alertStep league_info now st.alert_info).2
      new_game_found := true
      events := st.events ++ [Event.gameReport (reportOf league_info now st g)] }

/-- The whole per-game loop (lines 394-427). -/
def runGamesLoop (league_info : Option LeagueInfo) (now : Int) (st : LoopState)
    (games : List RawGame) : LoopState :=
  games.foldl (processGame league_info now) st

/-- The loop-local variables as initialised from the loaded data
(lines 385-388, 393). -/
def initLoop (prev : TrackerState) : LoopState :=
  ⟨prev.processed_games, prev.last_rating, prev.alert_info, false, []⟩

/-- `alert_needed` as computed inside `update_league_webhook`
(lines 257-267): requires a parseable ranking, a non-`None` threshold for
the league code, a non-`None` `endTime`, and less than a day left. -/
def alertNeeded (li : LeagueInfo) (now : Int) : Bool :=
  let league_code := pyLower ((li.league_code).getD "")
  match li.ranking, ADVANCEMENT_THRESHOLDS league_code, li.division_endTime with
  | some ranking_int, some cutoff, some end_time =>
    decide (cutoff < ranking_int) && decide (end_time - now < 86400)
  | _, _, _ => false

/-- The league embed content assembled in `update_league_webhook`
(lines 241-293). -/
def leagueUpdateEvent (li : LeagueInfo) (now : Int) : LeagueUpdateData :=
  { league_name := (li.league_name).getD "Unknown"
    league_code := pyLower ((li.league_code).getD "")
    league_place := li.ranking
    league_points := li.trophyCount
    alert_needed := alertNeeded li now }

/-- `update_league_webhook` (lines 231-316) as observed from outside: with
no `WEBHOOK_URL` it returns after a log line (line 237-239); otherwise it
evaluates `league_info.get("division", {})` (line 241), which raises
`AttributeError` when `league_info` is `None`; otherwise it posts one
league embed. -/
def updateLeagueWebhook (webhook_set : Bool) (league_info : Option LeagueInfo)
    (now : Int) : Except String (List Event) :=
  if webhook_set then
    match league_info with
    | none => Except.error "AttributeError"
    | some li => Except.ok [Event.leagueUpdate (leagueUpdateEvent li now)]
  else Except.ok []

/-- Outcome of one invocation of `main`: the ordered dispatch calls, the
reconciliation fields of the persisted record after the last completed
`save_last_game_data`, and the uncaught exception, if any. -/
structure RunResult where
  events : List Event
  state : TrackerState
  raised : Option String
deriving DecidableEq

/-- `main` (lines 384-432) with I/O made explicit.  `games` is the result
of `fetch_latest_games` (empty also on fetch failure, line 390-391 returns
before any state write), `league_info` the result of `fetch_league_info`,
`now` the value of `int(time.time())` during this run.  The state is saved
at line 430 before `update_league_webhook` runs, so a crash there leaves
the loop's state persisted but skips the league posting (and the git
commit of line 432). -/
def runMain (webhook_set : Bool) (prev : TrackerState) (games : List RawGame)
    (league_info : Option LeagueInfo) (now : Int) : RunResult :=
  if games.isEmpty then ⟨[], prev, none⟩
  else
    let fin := runGamesLoop league_info now (initLoop prev) games
    let saved : TrackerState := ⟨fin.processed, fin.last_rating, fin.alert_info⟩
    match updateLeagueWebhook webhook_set league_info now with
    | Except.ok evs => ⟨fin.events ++ evs, saved, none⟩
    | Except.error e => ⟨fin.events, saved, some e⟩

/-- A JSON-like Python value, for the persisted-state loader. -/
inductive PyValue where
  | pynull
  | pybool (b : Bool)
  | pyint (n : Int)
  | pystr (s : String)
  | pylist (items : List PyValue)
  | pydict (entries : List (String × PyValue))

/-- The observable condition of `last_game.json` when `main` starts. -/
inductive FileState where
  | missing
  | invalidJson
  | parsed (v : PyValue)

/-- The `try` body of `load_last_game_data` (lines 72-77): opening a
missing file raises `FileNotFoundError`, undecodable content raises
`json.JSONDecodeError`, and a decoded non-dict top level returns `{}`. -/
def load_body : FileState → Except String (List (String × PyValue))
  | FileState.missing => Except.error "FileNotFoundError"
  | FileState.invalidJson => Except.error "JSONDecodeError"
  | FileState.parsed v =>
    match v with
    | PyValue.pydict entries => Except.ok entries
    | _ => Except.ok []

/-- `load_last_game_data` (lines 71-82): both handled exceptions yield the
empty dict (the decode error additionally logs a warning). -/
def load_last_game_data (f : FileState) : List (String × PyValue) :=
  match load_body f with
  | Except.ok d => d
  | Except.error _ => []

/-- Is this event a game-report dispatch call (`send_discord_webhook`)? -/
def isGameReport : Event → Bool
  | Event.gameReport _ => true
  | Event.leagueUpdate _ => false

/-- Number of game-report dispatch calls in an event list. -/
def countGameReports (es : List Event) : Nat :=
  (es.filter isGameReport).length

/-- Does this event carry the per-game deadline-alert flag (`add_alert`)? -/
def isDeadlineAlertFlag : Event → Bool
  | Event.gameReport d => d.add_alert
  | Event.leagueUpdate _ => false

/-- Number of events in the run that carry the deadline-alert flag. -/
def countAlerts (es : List Event) : Nat :=
  (es.filter isDeadlineAlertFlag).length

/-- Number of league-update postings in an event list. -/
def countLeagueUpdates (es : List Event) : Nat :=
  (es.filter (fun e => !isGameReport e)).length

/-! Concrete sample inputs used by the witness and counterexample
theorems below. -/

/-- A fresh empty tracker state (what `load_last_game_data` defaults
produce). -/
def emptyTracker : TrackerState := ⟨[], [], ⟨none, false⟩⟩

/-- A new game for the tracked player: a rapid win with a reported rating
and a game URL ending in `5`. -/
def gNewSample : RawGame :=
  ⟨⟨"inseem", some 1500, "win", none⟩, ⟨"opp", some 1480, "checkmated", none⟩,
   some "600", some "g/5", none, none⟩

/-- A game whose extracted id is `"1"`. -/
def gDupSample : RawGame :=
  ⟨⟨"x", none, "win", none⟩, ⟨"y", none, "lost", none⟩,
   none, some "a/1", none, none⟩

/-- A rapid game for the tracked player with no `url` and no
`rating_change` field. -/
def gNoUrlSample : RawGame :=
  ⟨⟨"inseem", some 1215, "win", none⟩, ⟨"opp", some 1480, "resigned", none⟩,
   some "600", none, none, none⟩

/-- League info: wood league (threshold 20), rank 50, period ends at
100000. -/
def liWood : LeagueInfo :=
  ⟨some 100000, some "Wood League", some "wood", some 50, some 3,
   some "Division I", none⟩

/-- League info: legend league, whose advancement threshold is `None`. -/
def liLegend : LeagueInfo :=
  ⟨some 100000, some "Legend", some "legend", some 50, some 7,
   some "Division L", none⟩

/-- League info whose division record has no `endTime`. -/
def liNoEnd : LeagueInfo :=
  ⟨none, some "Wood League", some "wood", some 50, some 3,
   some "Division I", none⟩

/-- A previous state that has already processed game id `"1"`. -/
def prevDup : TrackerState := ⟨["1"], [], ⟨none, false⟩⟩

/-- A previous state whose alert for period 100000 has already been sent. -/
def prevSent : TrackerState := ⟨[], [], ⟨some 100000, true⟩⟩

/-- Loop state holding a rapid baseline of 1200. -/
def stRapid : LoopState := ⟨[], [("rapid", 1200)], ⟨none, false⟩, false, []⟩

/-- Loop state that has already processed game id `"1"`. -/
def stDup : LoopState := ⟨["1"], [], ⟨none, false⟩, false, []⟩

/-- Loop state that has already processed the empty game id. -/
def stEmptyId : LoopState := ⟨[""], [], ⟨none, false⟩, false, []⟩

/-! ### Helper lemmas -/

theorem dictGet_dictSet_self (m : List (String × Int)) (k : String) (v : Int) :
    dictGet (dictSet m k v) k = some v := by
  induction m with
  | nil => simp [dictSet, dictGet]
  | cons p t ih =>
    obtain ⟨k', v'⟩ := p
    by_cases h : k' = k
    · simp [dictSet, dictGet, h]
    · simp [dictSet, dictGet, h, ih]

theorem pySplit_ne_nil (sep : Char) : ∀ l : List Char, pySplit sep l ≠ [] := by
  intro l
  cases l with
  | nil => simp [pySplit]
  | cons c rest =>
    simp only [pySplit]
    split <;> simp

theorem processGame_skip (li : Option LeagueInfo) (now : Int) (st : LoopState)
    (g : RawGame) (h : gameIdOf g ∈ st.processed) :
    processGame li now st g = st := by
  simp [processGame, h]

theorem processGame_new (li : Option LeagueInfo) (now : Int) (st : LoopState)
    (g : RawGame) (h : gameIdOf g ∉ st.processed) :
    processGame li now st g =
      { processed := st.processed ++ [gameIdOf g]
        last_rating := dictSet st.last_rating (catOf g)
          (determine_game_details g).current_rating
        alert_info := (alertStep li now st.alert_info).2
        new_game_found := true
        events := st.events ++ [Event.gameReport (reportOf li now st g)] } := by
  simp [processGame, h]

theorem countGameReports_append (a b : List Event) :
    countGameReports (a ++ b) = countGameReports a + countGameReports b := by
  simp [countGameReports, List.filter_append]

theorem countAlerts_append (a b : List Event) :
    countAlerts (a ++ b) = countAlerts a + countAlerts b := by
  simp [countAlerts, List.filter_append]

theorem countLeagueUpdates_append (a b : List Event) :
    countLeagueUpdates (a ++ b) = countLeagueUpdates a + countLeagueUpdates b := by
  simp [countLeagueUpdates, List.filter_append]

theorem countGameReports_report (es : List Event) (d : GameReportData) :
    countGameReports (es ++ [Event.gameReport d]) = countGameReports es + 1 := by
  simp [countGameReports, List.filter_append, isGameReport]

theorem countLeagueUpdates_report (es : List Event) (d : GameReportData) :
    countLeagueUpdates (es ++ [Event.gameReport d]) = countLeagueUpdates es := by
  simp [countLeagueUpdates, List.filter_append, isGameReport]

theorem countGameReports_league (d : LeagueUpdateData) :
    countGameReports [Event.leagueUpdate d] = 0 := rfl

theorem countAlerts_league (d : LeagueUpdateData) :
    countAlerts [Event.leagueUpdate d] = 0 := rfl

theorem countLeagueUpdates_league (d : LeagueUpdateData) :
    countLeagueUpdates [Event.leagueUpdate d] = 1 := rfl

theorem countAlerts_report (es : List Event) (d : GameReportData) :
    countAlerts (es ++ [Event.gameReport d])
      = countAlerts es + (if d.add_alert then 1 else 0) := by
  cases hd : d.add_alert <;>
    simp [countAlerts, List.filter_append, isDeadlineAlertFlag, hd]

theorem countAlerts_after_new (li : Option LeagueInfo) (now : Int) (st : LoopState)
    (g : RawGame) (h : gameIdOf g ∉ st.processed) :
    countAlerts (processGame li now st g).events
      = countAlerts st.events + (if (alertStep li now st.alert_info).1 then 1 else 0) := by
  rw [processGame_new li now st g h]
  simp [countAlerts_report, reportOf]

theorem alertInfo_after_new (li : Option LeagueInfo) (now : Int) (st : LoopState)
    (g : RawGame) (h : gameIdOf g ∉ st.processed) :
    (processGame li now st g).alert_info = (alertStep li now st.alert_info).2 := by
  rw [processGame_new li now st g h]

theorem alertStep_sent (li : LeagueInfo) (now E : Int)
    (hE : li.division_endTime = some E) :
    alertStep (some li) now ⟨some E, true⟩ = (false, ⟨some E, true⟩) := by
  simp [alertStep, hE]

theorem alertStep_fire (li : LeagueInfo) (now E : Int) (ai : AlertInfo)
    (hE : li.division_endTime = some E) (hwin : E - now < 86400)
    (hsent : ai.alert_sent = false) :
    alertStep (some li) now ai = (true, ⟨some E, true⟩) := by
  obtain ⟨le, se⟩ := ai
  simp only at hsent
  subst hsent
  by_cases hr : le = some E
  · subst hr; simp [alertStep, hE, hwin]
  · simp [alertStep, hE, hwin, hr]

theorem alertStep_idle (li : LeagueInfo) (now E : Int)
    (hE : li.division_endTime = some E) (hwin : ¬ (E - now < 86400)) :
    alertStep (some li) now ⟨some E, false⟩ = (false, ⟨some E, false⟩) := by
  simp [alertStep, hE, hwin]

theorem alertStep_reset_noWin (li : LeagueInfo) (now E : Int) (ai : AlertInfo)
    (hE : li.division_endTime = some E) (hne : ai.league_endTime ≠ some E)
    (hwin : ¬ (E - now < 86400)) :
    alertStep (some li) now ai = (false, ⟨some E, false⟩) := by
  simp [alertStep, hE, hne, hwin]

theorem runGamesLoop_nil (li : Option LeagueInfo) (now : Int) (st : LoopState) :
    runGamesLoop li now st [] = st := rfl

theorem runGamesLoop_cons (li : Option LeagueInfo) (now : Int) (st : LoopState)
    (g : RawGame) (gs : List RawGame) :
    runGamesLoop li now st (g :: gs)
      = runGamesLoop li now (processGame li now st g) gs := rfl

theorem runGamesLoop_processed_inv (li : Option LeagueInfo) (now : Int) :
    ∀ (games : List RawGame) (st : LoopState),
      ∃ ids : List String,
        (runGamesLoop li now st games).processed = st.processed ++ ids ∧
        countGameReports (runGamesLoop li now st games).events
          = countGameReports st.events + ids.length ∧
        ids.Nodup ∧
        ∀ i ∈ ids, i ∉ st.processed := by
  intro games
  induction games with
  | nil =>
    intro st
    exact ⟨[], by simp [runGamesLoop_nil], by simp [runGamesLoop_nil], by simp, by simp⟩
  | cons g gs ih =>
    intro st
    by_cases h : gameIdOf g ∈ st.processed
    · rw [runGamesLoop_cons, processGame_skip li now st g h]
      exact ih st
    · obtain ⟨ids, h1, h2, h3, h4⟩ := ih (processGame li now st g)
      have hp := processGame_new li now st g h
      refine ⟨gameIdOf g :: ids, ?_, ?_, ?_, ?_⟩
      · rw [runGamesLoop_cons, h1, hp]; simp
      · rw [runGamesLoop_cons, h2, hp]
        simp [countGameReports_report]
        omega
      · refine List.nodup_cons.mpr ⟨?_, h3⟩
        intro hin
        have hni := h4 _ hin
        rw [hp] at hni
        simp at hni
      · intro i hi
        rcases List.mem_cons.mp hi with rfl | hi'
        · exact h
        · have hni := h4 _ hi'
          rw [hp] at hni
          simp at hni
          exact hni.1

theorem runGamesLoop_no_league (li : Option LeagueInfo) (now : Int) :
    ∀ (games : List RawGame) (st : LoopState),
      countLeagueUpdates (runGamesLoop li now st games).events
        = countLeagueUpdates st.events := by
  intro games
  induction games with
  | nil => intro st; rfl
  | cons g gs ih =>
    intro st
    rw [runGamesLoop_cons]
    by_cases h : gameIdOf g ∈ st.processed
    · rw [processGame_skip li now st g h]; exact ih st
    · rw [ih (processGame li now st g), processGame_new li now st g h]
      simp [countLeagueUpdates_report]

theorem runGamesLoop_nf_mono (li : Option LeagueInfo) (now : Int) :
    ∀ (games : List RawGame) (st : LoopState), st.new_game_found = true →
      (runGamesLoop li now st games).new_game_found = true := by
  intro games
  induction games with
  | nil => intro st h; exact h
  | cons g gs ih =>
    intro st h
    rw [runGamesLoop_cons]
    by_cases hm : gameIdOf g ∈ st.processed
    · rw [processGame_skip li now st g hm]; exact ih st h
    · apply ih
      rw [processGame_new li now st g hm]

theorem runGamesLoop_nf_of_new (li : Option LeagueInfo) (now : Int) :
    ∀ (games : List RawGame) (st : LoopState),
      (∃ g ∈ games, gameIdOf g ∉ st.processed) →
      (runGamesLoop li now st games).new_game_found = true := by
  intro games
  induction games with
  | nil =>
    intro st h
    obtain ⟨g, hg, _⟩ := h
    exact absurd hg (List.not_mem_nil g)
  | cons g gs ih =>
    intro st h
    obtain ⟨g0, hg0, hnew⟩ := h
    rw [runGamesLoop_cons]
    by_cases hm : gameIdOf g ∈ st.processed
    · rw [processGame_skip li now st g hm]
      apply ih
      rcases List.mem_cons.mp hg0 with rfl | h'
      · exact absurd hm hnew
      · exact ⟨g0, h', hnew⟩
    · apply runGamesLoop_nf_mono
      rw [processGame_new li now st g hm]

theorem runGamesLoop_alert_sent (li : LeagueInfo) (now E : Int)
    (hE : li.division_endTime = some E) :
    ∀ (games : List RawGame) (st : LoopState), st.alert_info = ⟨some E, true⟩ →
      (runGamesLoop (some li) now st games).alert_info = ⟨some E, true⟩ ∧
      countAlerts (runGamesLoop (some li) now st games).events
        = countAlerts st.events := by
  intro games
  induction games with
  | nil => intro st h; exact ⟨h, rfl⟩
  | cons g gs ih =>
    intro st h
    rw [runGamesLoop_cons]
    by_cases hm : gameIdOf g ∈ st.processed
    · rw [processGame_skip _ _ _ _ hm]; exact ih st h
    · have hstep : alertStep (some li) now st.alert_info = (false, ⟨some E, true⟩) := by
        rw [h]; exact alertStep_sent li now E hE
      obtain ⟨i1, i2⟩ := ih (processGame (some li) now st g)
        (by rw [alertInfo_after_new _ _ _ _ hm, hstep])
      refine ⟨i1, ?_⟩
      rw [i2, countAlerts_after_new _ _ _ _ hm, hstep]
      simp

theorem runGamesLoop_alert_idle (li : LeagueInfo) (now E : Int)
    (hE : li.division_endTime = some E) (hwin : ¬ (E - now < 86400)) :
    ∀ (games : List RawGame) (st : LoopState), st.alert_info = ⟨some E, false⟩ →
      (runGamesLoop (some li) now st games).alert_info = ⟨some E, false⟩ ∧
      countAlerts (runGamesLoop (some li) now st games).events
        = countAlerts st.events := by
  intro games
  induction games with
  | nil => intro st h; exact ⟨h, rfl⟩
  | cons g gs ih =>
    intro st h
    rw [runGamesLoop_cons]
    by_cases hm : gameIdOf g ∈ st.processed
    · rw [processGame_skip _ _ _ _ hm]; exact ih st h
    · have hstep : alertStep (some li) now st.alert_info = (false, ⟨some E, false⟩) := by
        rw [h]; exact alertStep_idle li now E hE hwin
      obtain ⟨i1, i2⟩ := ih (processGame (some li) now st g)
        (by rw [alertInfo_after_new _ _ _ _ hm, hstep])
      refine ⟨i1, ?_⟩
      rw [i2, countAlerts_after_new _ _ _ _ hm, hstep]
      simp

theorem runGamesLoop_alert_fire (li : LeagueInfo) (now E : Int)
    (hE : li.division_endTime = some E) (hwin : E - now < 86400) :
    ∀ (games : List RawGame) (st : LoopState), st.alert_info.alert_sent = false →
      ((runGamesLoop (some li) now st games).new_game_found = st.new_game_found ∧
       (runGamesLoop (some li) now st games).alert_info = st.alert_info ∧
       countAlerts (runGamesLoop (some li) now st games).events
         = countAlerts st.events) ∨
      ((runGamesLoop (some li) now st games).new_game_found = true ∧
       (runGamesLoop (some li) now st games).alert_info = ⟨some E, true⟩ ∧
       countAlerts (runGamesLoop (some li) now st games).events
         = countAlerts st.events + 1) := by
  intro games
  induction games with
  | nil => intro st _; left; exact ⟨rfl, rfl, rfl⟩
  | cons g gs ih =>
    intro st hsent
    rw [runGamesLoop_cons]
    by_cases hm : gameIdOf g ∈ st.processed
    · rw [processGame_skip _ _ _ _ hm]; exact ih st hsent
    · have hstep : alertStep (some li) now st.alert_info = (true, ⟨some E, true⟩) :=
        alertStep_fire li now E st.alert_info hE hwin hsent
      have h1 : (processGame (some li) now st g).alert_info = ⟨some E, true⟩ := by
        rw [alertInfo_after_new _ _ _ _ hm, hstep]
      have h2 : countAlerts (processGame (some li) now st g).events
          = countAlerts st.events + 1 := by
        rw [countAlerts_after_new _ _ _ _ hm, hstep]
        simp
      have h3 : (processGame (some li) now st g).new_game_found = true := by
        rw [processGame_new _ _ _ _ hm]
      obtain ⟨i1, i2⟩ := runGamesLoop_alert_sent li now E hE gs
        (processGame (some li) now st g) h1
      right
      exact ⟨runGamesLoop_nf_mono _ _ gs _ h3, i1, by rw [i2, h2]⟩

theorem runGamesLoop_alert_reset (li : LeagueInfo) (now E : Int)
    (hE : li.division_endTime = some E) (hwin : ¬ (E - now < 86400)) :
    ∀ (games : List RawGame) (st : LoopState),
      st.alert_info.league_endTime ≠ some E →
      ((runGamesLoop (some li) now st games).new_game_found = st.new_game_found ∧
       (runGamesLoop (some li) now st games).alert_info = st.alert_info ∧
       countAlerts (runGamesLoop (some li) now st games).events
         = countAlerts st.events) ∨
      ((runGamesLoop (some li) now st games).new_game_found = true ∧
       (runGamesLoop (some li) now st games).alert_info = ⟨some E, false⟩ ∧
       countAlerts (runGamesLoop (some li) now st games).events
         = countAlerts st.events) := by
  intro games
  induction games with
  | nil => intro st _; left; exact ⟨rfl, rfl, rfl⟩
  | cons g gs ih =>
    intro st hne
    rw [runGamesLoop_cons]
    by_cases hm : gameIdOf g ∈ st.processed
    · rw [processGame_skip _ _ _ _ hm]; exact ih st hne
    · have hstep : alertStep (some li) now st.alert_info = (false, ⟨some E, false⟩) :=
        alertStep_reset_noWin li now E st.alert_info hE hne hwin
      have h1 : (processGame (some li) now st g).alert_info = ⟨some E, false⟩ := by
        rw [alertInfo_after_new _ _ _ _ hm, hstep]
      have h2 : countAlerts (processGame (some li) now st g).events
          = countAlerts st.events := by
        rw [countAlerts_after_new _ _ _ _ hm, hstep]; simp
      have h3 : (processGame (some li) now st g).new_game_found = true := by
        rw [processGame_new _ _ _ _ hm]
      obtain ⟨i1, i2⟩ := runGamesLoop_alert_idle li now E hE hwin gs
        (processGame (some li) now st g) h1
      right
      exact ⟨runGamesLoop_nf_mono _ _ gs _ h3, i1, by rw [i2, h2]⟩

theorem runMain_proj (w : Bool) (prev : TrackerState) (games : List RawGame)
    (li : Option LeagueInfo) (now : Int) (h : games ≠ []) :
    (runMain w prev games li now).state.processed_games
        = (runGamesLoop li now (initLoop prev) games).processed ∧
    (runMain w prev games li now).state.alert_info
        = (runGamesLoop li now (initLoop prev) games).alert_info ∧
    countGameReports (runMain w prev games li now).events
        = countGameReports (runGamesLoop li now (initLoop prev) games).events ∧
    countAlerts (runMain w prev games li now).events
        = countAlerts (runGamesLoop li now (initLoop prev) games).events := by
  have hne : games.isEmpty = false := by
    cases games with
    | nil => exact absurd rfl h
    | cons a l => rfl
  cases w <;> cases li <;>
    simp [runMain, hne, updateLeagueWebhook, countGameReports_append,
      countAlerts_append, countGameReports_league, countAlerts_league]

/-! ### Claim theorems -/

/-- Claim C1: Monotonic dedup.  For every run, the persisted processed-game
list extends the previous one by a duplicate-free block of ids none of
which was already processed, with exactly one `GameReport` dispatch per new
id; and, at the level of a single loop iteration, a game whose id is
already in the running processed set leaves the loop state unchanged (no
event, no state mutation) — so an id in the previous state's set is never
notified, and a duplicate id inside one batch is notified at most once. -/
theorem c1_monotonic_dedup :
    (∀ (w : Bool) (prev : TrackerState) (games : List RawGame)
        (li : Option LeagueInfo) (now : Int),
      ∃ newIds : List String,
        (runMain w prev games li now).state.processed_games
            = prev.processed_games ++ newIds ∧
        countGameReports (runMain w prev games li now).events = newIds.length ∧
        newIds.Nodup ∧
        ∀ i ∈ newIds, i ∉ prev.processed_games) ∧
    (∀ (li : Option LeagueInfo) (now : Int) (st : LoopState) (g : RawGame),
      gameIdOf g ∈ st.processed → processGame li now st g = st) := by
  constructor
  · intro w prev games li now
    rcases games with _ | ⟨g, gs⟩
    · exact ⟨[], by simp [runMain], by simp [runMain, countGameReports],
        by simp, by simp⟩
    · have h : (g :: gs) ≠ ([] : List RawGame) := List.cons_ne_nil g gs
      obtain ⟨p1, _, p3, _⟩ := runMain_proj w prev (g :: gs) li now h
      obtain ⟨ids, h1, h2, h3, h4⟩ :=
        runGamesLoop_processed_inv li now (g :: gs) (initLoop prev)
      refine ⟨ids, ?_, ?_, h3, ?_⟩
      · rw [p1, h1]; rfl
      · rw [p3, h2]; simp [initLoop, countGameReports]
      · intro i hi; exact h4 i hi
  · exact fun li now st g h => processGame_skip li now st g h

/-- Witness for C1 at a concrete input: game id `"1"` is already processed,
so the loop iteration is the identity. -/
theorem c1_witness :
    gameIdOf gDupSample ∈ stDup.processed ∧
    processGame none 0 stDup gDupSample = stDup :=
  ⟨by decide, c1_monotonic_dedup.2 none 0 stDup gDupSample (by decide)⟩

/-- Claim C2: Rating-change precedence.  For a new (unprocessed) game, the
dispatched `GameReport` carries the source-reported `rating_change` when
present; otherwise the difference against the stored baseline for the
game's category when one exists; otherwise `0`.  In every case the stored
baseline for that category is then the game's current rating.  (The
baseline consulted is the running `last_rating_dict` — the state
established before this game in the run.) -/
theorem c2_rating_precedence (li : Option LeagueInfo) (now : Int)
    (st : LoopState) (g : RawGame) (h : gameIdOf g ∉ st.processed) :
    ∃ e : GameReportData,
      (processGame li now st g).events = st.events ++ [Event.gameReport e] ∧
      (∀ rc, (determine_game_details g).raw_rating_change = some rc →
        e.rating_change = rc) ∧
      ((determine_game_details g).raw_rating_change = none →
        ∀ p, dictGet st.last_rating (catOf g) = some p →
          e.rating_change = (determine_game_details g).current_rating - p) ∧
      ((determine_game_details g).raw_rating_change = none →
        dictGet st.last_rating (catOf g) = none → e.rating_change = 0) ∧
      dictGet (processGame li now st g).last_rating (catOf g)
        = some (determine_game_details g).current_rating := by
  refine ⟨reportOf li now st g, ?_, ?_, ?_, ?_, ?_⟩
  · rw [processGame_new li now st g h]
  · intro rc hrc
    simp [reportOf, ratingChangeOf, hrc]
  · intro hn p hp
    simp [reportOf, ratingChangeOf, hn, hp]
  · intro hn hp
    simp [reportOf, ratingChangeOf, hn, hp]
  · rw [processGame_new li now st g h]
    exact dictGet_dictSet_self st.last_rating (catOf g)
      (determine_game_details g).current_rating

/-- Witness for C2 at a concrete input: a new rapid game with no reported
`rating_change` against a stored rapid baseline. -/
theorem c2_witness :
    gameIdOf gNoUrlSample ∉ stRapid.processed ∧
    (∃ e : GameReportData,
      (processGame none 0 stRapid gNoUrlSample).events
          = stRapid.events ++ [Event.gameReport e] ∧
      (∀ rc, (determine_game_details gNoUrlSample).raw_rating_change = some rc →
        e.rating_change = rc) ∧
      ((determine_game_details gNoUrlSample).raw_rating_change = none →
        ∀ p, dictGet stRapid.last_rating (catOf gNoUrlSample) = some p →
          e.rating_change
            = (determine_game_details gNoUrlSample).current_rating - p) ∧
      ((determine_game_details gNoUrlSample).raw_rating_change = none →
        dictGet stRapid.last_rating (catOf gNoUrlSample) = none →
          e.rating_change = 0) ∧
      dictGet (processGame none 0 stRapid gNoUrlSample).last_rating
          (catOf gNoUrlSample)
        = some (determine_game_details gNoUrlSample).current_rating) :=
  ⟨by decide, c2_rating_precedence none 0 stRapid gNoUrlSample (by decide)⟩

/-- Counterexample to claim C3 as stated: a run whose only fetched game is
already in the processed set (no new game found) still posts exactly one
`LeagueUpdate` — `update_league_webhook` is called unconditionally at line
431; the `new_game_found` flag computed at lines 393/427 is never
consulted. -/
theorem c3_counterexample :
    gameIdOf gDupSample ∈ prevDup.processed_games ∧
    countGameReports (runMain true prevDup [gDupSample] (some liWood) 0).events
      = 0 ∧
    countLeagueUpdates (runMain true prevDup [gDupSample] (some liWood) 0).events
      = 1 := by
  exact ⟨by decide, by decide, by decide⟩

/-- Claim C3, amended: a `LeagueUpdate` is posted on every run whose game
fetch returns a non-empty list and whose standing fetch succeeded (with the
webhook configured), regardless of whether any new game was found. -/
theorem c3_league_update_every_run (prev : TrackerState) (games : List RawGame)
    (li : LeagueInfo) (now : Int) (h : games ≠ []) :
    countLeagueUpdates (runMain true prev games (some li) now).events = 1 := by
  have hne : games.isEmpty = false := by
    cases games with
    | nil => exact absurd rfl h
    | cons a l => rfl
  have hloop := runGamesLoop_no_league (some li) now games (initLoop prev)
  simp [runMain, hne, updateLeagueWebhook, countLeagueUpdates_append,
    countLeagueUpdates_league, hloop]
  rfl

/-- Witness for the amended C3 at a concrete input. -/
theorem c3_witness :
    countLeagueUpdates (runMain true prevSent [gNewSample] (some liWood) 0).events
      = 1 :=
  c3_league_update_every_run prevSent [gNewSample] liWood 0 (by decide)

/-- Counterexample to claim C4 as stated: a run strictly inside the
sub-24-hour window with `alert_sent = false` whose fetched games are all
already processed emits zero deadline alerts and leaves `alert_sent`
false — the deadline check of lines 411-422 runs only inside the per-game
loop, so a run with no new game never evaluates it. -/
theorem c4_counterexample :
    prevDup.alert_info.alert_sent = false ∧
    liWood.division_endTime = some 100000 ∧
    ((100000 : Int) - 90000 < 86400) ∧
    countAlerts (runMain true prevDup [gDupSample] (some liWood) 90000).events
      = 0 ∧
    (runMain true prevDup [gDupSample] (some liWood) 90000).state.alert_info.alert_sent
      = false := by
  exact ⟨rfl, rfl, by decide, by decide, by decide⟩

/-- Claim C4, amended: the per-game deadline alert is edge-fired once per
period *provided the run processes at least one new game* (the check lives
inside the per-game loop).  With `period_end_time = T`: a run in the
sub-24-hour window with `alert_sent = false` that finds a new game flags
exactly one dispatch with the alert and persists
`⟨some T, alert_sent := true⟩`; a run observing the same `T` with
`alert_sent = true` flags none and leaves the record unchanged; a run
observing a different `T` outside the window that finds a new game resets
the record to `⟨some T, alert_sent := false⟩` and flags none. -/
theorem c4_edge_trigger_amended (w : Bool) (prev : TrackerState)
    (games : List RawGame) (li : LeagueInfo) (now T : Int)
    (hT : li.division_endTime = some T) :
    ( T - now < 86400 → prev.alert_info.alert_sent = false →
      (∃ g ∈ games, gameIdOf g ∉ prev.processed_games) →
      countAlerts (runMain w prev games (some li) now).events = 1 ∧
      (runMain w prev games (some li) now).state.alert_info
        = ⟨some T, true⟩ ) ∧
    ( prev.alert_info = ⟨some T, true⟩ →
      countAlerts (runMain w prev games (some li) now).events = 0 ∧
      (runMain w prev games (some li) now).state.alert_info
        = ⟨some T, true⟩ ) ∧
    ( ¬ (T - now < 86400) → prev.alert_info.league_endTime ≠ some T →
      (∃ g ∈ games, gameIdOf g ∉ prev.processed_games) →
      countAlerts (runMain w prev games (some li) now).events = 0 ∧
      (runMain w prev games (some li) now).state.alert_info
        = ⟨some T, false⟩ ) := by
  refine ⟨?_, ?_, ?_⟩
  · intro hwin hsent hex
    have hne : games ≠ [] := by
      obtain ⟨g, hg, _⟩ := hex
      exact List.ne_nil_of_mem hg
    obtain ⟨_, p2, _, p4⟩ := runMain_proj w prev games (some li) now hne
    have hnf := runGamesLoop_nf_of_new (some li) now games (initLoop prev) hex
    rcases runGamesLoop_alert_fire li now T hT hwin games (initLoop prev) hsent
      with ⟨f1, _, _⟩ | ⟨_, f2, f3⟩
    · exact absurd (f1.symm.trans hnf) (by simp [initLoop])
    · constructor
      · rw [p4, f3]; rfl
      · rw [p2, f2]
  · intro hprev
    rcases games with _ | ⟨g, gs⟩
    · constructor
      · simp [runMain, countAlerts]
      · simp [runMain, hprev]
    · have hne : (g :: gs) ≠ ([] : List RawGame) := List.cons_ne_nil g gs
      obtain ⟨_, p2, _, p4⟩ := runMain_proj w prev (g :: gs) (some li) now hne
      obtain ⟨s1, s2⟩ := runGamesLoop_alert_sent li now T hT (g :: gs)
        (initLoop prev) hprev
      constructor
      · rw [p4, s2]; rfl
      · rw [p2, s1]
  · intro hwin hstored hex
    have hne : games ≠ [] := by
      obtain ⟨g, hg, _⟩ := hex
      exact List.ne_nil_of_mem hg
    obtain ⟨_, p2, _, p4⟩ := runMain_proj w prev games (some li) now hne
    have hnf := runGamesLoop_nf_of_new (some li) now games (initLoop prev) hex
    rcases runGamesLoop_alert_reset li now T hT hwin games (initLoop prev) hstored
      with ⟨f1, _, _⟩ | ⟨_, f2, f3⟩
    · exact absurd (f1.symm.trans hnf) (by simp [initLoop])
    · constructor
      · rw [p4, f3]; rfl
      · rw [p2, f2]

/-- Witness for the amended C4 at concrete inputs, one per part. -/
theorem c4_witness :
    (countAlerts (runMain true emptyTracker [gNewSample] (some liWood) 90000).events
        = 1 ∧
      (runMain true emptyTracker [gNewSample] (some liWood) 90000).state.alert_info
        = ⟨some 100000, true⟩) ∧
    (countAlerts (runMain true prevSent [] (some liWood) 0).events = 0 ∧
      (runMain true prevSent [] (some liWood) 0).state.alert_info
        = ⟨some 100000, true⟩) ∧
    (countAlerts (runMain true emptyTracker [gNewSample] (some liWood) 0).events
        = 0 ∧
      (runMain true emptyTracker [gNewSample] (some liWood) 0).state.alert_info
        = ⟨some 100000, false⟩) :=
  ⟨(c4_edge_trigger_amended true emptyTracker [gNewSample] liWood 90000 100000
      rfl).1 (by decide) rfl ⟨gNewSample, by simp, by decide⟩,
   (c4_edge_trigger_amended true prevSent [] liWood 0 100000 rfl).2.1 rfl,
   (c4_edge_trigger_amended true emptyTracker [gNewSample] liWood 0 100000
      rfl).2.2 (by decide) (by decide) ⟨gNewSample, by simp, by decide⟩⟩

/-- Claim C5 (code bug): when the standing snapshot has no
`period_end_time`, line 414 defaults it to `0`, so `time_left` becomes a
large negative number, `time_left < 86400` holds, and the deadline alert
*fires* on the first new game — the opposite of the fail-safe invariant.
Evaluated here at a concrete failing input. -/
theorem c5_alert_fires_without_deadline :
    liNoEnd.division_endTime = none ∧
    emptyTracker.processed_games = [] ∧
    countAlerts (runMain true emptyTracker [gNewSample] (some liNoEnd) 1000).events
      = 1 ∧
    (runMain true emptyTracker [gNewSample] (some liNoEnd) 1000).state.alert_info
      = ⟨some 0, true⟩ := by
  exact ⟨rfl, rfl, by decide, by decide⟩

/-- Counterexample to claim C6 as stated: the per-game deadline-alert flag
of lines 411-422 never consults `ADVANCEMENT_THRESHOLDS`, so a run in the
legend league (threshold `None`) still flags a deadline alert on a new
game inside the window. -/
theorem c6_counterexample :
    ADVANCEMENT_THRESHOLDS (pyLower ((liLegend.league_code).getD "")) = none ∧
    countAlerts (runMain true emptyTracker [gNewSample] (some liLegend) 90000).events
      = 1 := by
  exact ⟨by decide, by decide⟩

/-- Claim C6, amended: the league-webhook `Alert` embed field
(`alert_needed`, lines 259-267) indeed never fires for a league code with
no defined advancement threshold, whatever the remaining time; but the
per-game `add_alert` flag of lines 411-422 is computed without consulting
the threshold table and can be set even for such leagues (that flag is
accepted and ignored by `send_discord_webhook`, so it never reaches a
delivered message). -/
theorem c6_threshold_none_no_alert (li : LeagueInfo) (now : Int)
    (h : ADVANCEMENT_THRESHOLDS (pyLower ((li.league_code).getD "")) = none) :
    alertNeeded li now = false ∧
    ∀ (w : Bool) (evs : List Event),
      updateLeagueWebhook w (some li) now = Except.ok evs →
      ∀ d : LeagueUpdateData, Event.leagueUpdate d ∈ evs →
        d.alert_needed = false := by
  have h1 : alertNeeded li now = false := by
    rcases hr : li.ranking with _ | r <;>
      rcases hd : li.division_endTime with _ | e <;>
        simp [alertNeeded, h, hr, hd]
  refine ⟨h1, ?_⟩
  intro w evs hw d hd
  cases w with
  | false =>
    simp [updateLeagueWebhook] at hw
    subst hw
    simp at hd
  | true =>
    simp [updateLeagueWebhook] at hw
    subst hw
    simp at hd
    rw [hd]
    simpa [leagueUpdateEvent] using h1

/-- Witness for the amended C6 at a concrete input: the legend league. -/
theorem c6_witness :
    ADVANCEMENT_THRESHOLDS (pyLower ((liLegend.league_code).getD "")) = none ∧
    alertNeeded liLegend 12345 = false :=
  ⟨by decide, (c6_threshold_none_no_alert liLegend 12345 (by decide)).1⟩

/-- Claim C7: loading the persisted state never fails the caller — a
missing file and an invalid-JSON file both yield the empty dict (the
latter with a logged warning), a decoded non-dict top level yields the
empty dict, and only a decoded dict is returned as-is. -/
theorem c7_load_resilient :
    load_last_game_data FileState.missing = [] ∧
    load_last_game_data FileState.invalidJson = [] ∧
    (∀ f : FileState,
      load_last_game_data f = [] ∨
      ∃ d, f = FileState.parsed (PyValue.pydict d) ∧ load_last_game_data f = d) := by
  refine ⟨rfl, rfl, ?_⟩
  intro f
  cases f with
  | missing => left; rfl
  | invalidJson => left; rfl
  | parsed v =>
    cases v with
    | pydict d => right; exact ⟨d, rfl, rfl⟩
    | pynull => left; rfl
    | pybool b => left; rfl
    | pyint n => left; rfl
    | pystr s => left; rfl
    | pylist xs => left; rfl

/-- Claim C8 (code bug): with the webhook configured, a failed standing
fetch (`league_info = None`) makes `update_league_webhook` dereference
`None` at line 241 and the run dies with an uncaught `AttributeError` —
after the per-game loop has processed, notified and persisted the new
game, but before the league posting and before the git commit of the
state file.  A run with an empty (failed) game fetch, by contrast, really
does abort with no state mutation and no events. -/
theorem c8_crash_on_missing_standing :
    (runMain true emptyTracker [gNewSample] none 0).raised
      = some "AttributeError" ∧
    countGameReports (runMain true emptyTracker [gNewSample] none 0).events = 1 ∧
    (runMain true emptyTracker [gNewSample] none 0).state.processed_games
      = ["5"] ∧
    (∀ (w : Bool) (prev : TrackerState) (li : Option LeagueInfo) (now : Int),
      runMain w prev [] li now = ⟨[], prev, none⟩) := by
  exact ⟨by decide, by decide, by decide, fun w prev li now => rfl⟩

/-- Claim C9: determinism of the reconciliation step.  The run is a pure
function of the previous state, the fetched game list, the optional
standing, the webhook configuration and the (fixed) current time: equal
inputs give equal persisted state and an equal ordered event list. -/
theorem c9_deterministic (w w' : Bool) (p p' : TrackerState)
    (gs gs' : List RawGame) (li li' : Option LeagueInfo) (t t' : Int)
    (hw : w = w') (hp : p = p') (hg : gs = gs') (hl : li = li') (ht : t = t') :
    runMain w p gs li t = runMain w' p' gs' li' t' := by
  subst hw; subst hp; subst hg; subst hl; subst ht; rfl

/-- Witness for C9 at a concrete input. -/
theorem c9_witness :
    runMain true emptyTracker [gNewSample] (some liWood) 42
      = runMain true emptyTracker [gNewSample] (some liWood) 42 :=
  c9_deterministic true true emptyTracker emptyTracker [gNewSample] [gNewSample]
    (some liWood) (some liWood) 42 42 rfl rfl rfl rfl rfl

/-- Claim C10: game-id extraction is total and collapses absent URLs.
Splitting never yields an empty list (the `else url` fallback of
`extract_game_id` is unreachable), a game with no `url` field gets the
dedup key `""`, and once `""` is in the running processed set every later
url-less game is skipped unchanged — notified at most once per batch. -/
theorem c10_game_id_total :
    (∀ url : String, (pySplit '/' (rstripSlashL url.toList)).getLast? ≠ none) ∧
    extract_game_id "" = "" ∧
    (∀ g : RawGame, g.url = none → gameIdOf g = "") ∧
    (∀ (li : Option LeagueInfo) (now : Int) (st : LoopState) (g : RawGame),
      g.url = none → "" ∈ st.processed → processGame li now st g = st) ∧
    (∀ (li : Option LeagueInfo) (now : Int) (st : LoopState) (g : RawGame),
      g.url = none → "" ∉ st.processed →
        "" ∈ (processGame li now st g).processed) := by
  have hid : ∀ g : RawGame, g.url = none → gameIdOf g = "" := by
    intro g h
    simp [gameIdOf, h]
    rfl
  refine ⟨?_, by decide, hid, ?_, ?_⟩
  · intro url h
    exact pySplit_ne_nil '/' (rstripSlashL url.toList)
      (List.getLast?_eq_none_iff.mp h)
  · intro li now st g hu hm
    exact processGame_skip li now st g (by rw [hid g hu]; exact hm)
  · intro li now st g hu hm
    have h' : gameIdOf g ∉ st.processed := by rw [hid g hu]; exact hm
    rw [processGame_new li now st g h']
    simp [hid g hu]

/-- Witness for C10 at a concrete input: a second url-less game is skipped
once `""` has been processed. -/
theorem c10_witness :
    gNoUrlSample.url = none ∧ "" ∈ stEmptyId.processed ∧
    processGame none 0 stEmptyId gNoUrlSample = stEmptyId :=
  ⟨rfl, by decide,
    c10_game_id_total.2.2.2.1 none 0 stEmptyId gNoUrlSample rfl (by decide)⟩

end ChessTracker
